import Mathlib

/-!
Shallow embedding of `octoprint_bambu_printer/printer/printer_serial_io.py`
(class `PrinterSerialIO`), the G-code serial protocol engine: line
reassembly, checksum and line-number validation, resend requests, command
dispatch, and channel lifecycle.

Byte strings are `List Nat` (each element one byte of the Python `bytes`
value).  Python exceptions that can escape the modelled code paths are made
explicit with `Except PyErr`.  Reading an instance attribute that was never
assigned (Python `AttributeError`) is modelled by storing `current_line` and
`lastN` as `Option Int`, `none` meaning "not yet assigned", and erroring on a
read of `none`.  The nulled queue handles used as a closed-flag are modelled
as `Option` queues.  Queue contents are explicit lists; the background
thread's loop body is the state-step function `runIteration`.
-/

namespace BambuSerial

/-- A Python `bytes` value: a list of byte values. -/
abbrev ByteStr := List Nat

/-- Bytes of an ASCII string literal (used to write concrete inputs). -/
def bytesOfString (s : String) : ByteStr := s.toList.map Char.toNat

/-- Python exceptions that can escape the modelled code paths. -/
inductive PyErr where
  | attributeError
  | valueError
  | indexError
  | assertionError
  | serialTimeout
deriving DecidableEq

/-- Python's byte whitespace class `b" \t\n\r\x0b\x0c"` used by
`bytes.strip`/`bytes.split`. -/
def isPySpace (b : Nat) : Bool :=
  b = 32 || b = 9 || b = 10 || b = 13 || b = 11 || b = 12

/-- ASCII decimal digit test, `[0-9]` in the regexes. -/
def isDigitByte (b : Nat) : Bool := 48 ≤ b && b ≤ 57

/-- Value of a most-significant-first list of ASCII digit bytes
(the `int()` conversion applied to a regex digit group). -/
def parseDigits (l : List Nat) : Nat :=
  l.foldl (fun a b => 10 * a + (b - 48)) 0

/-- `bytes.strip()`: remove leading and trailing Python whitespace. -/
def stripBytes (l : ByteStr) : ByteStr :=
  ((l.dropWhile isPySpace).reverse.dropWhile isPySpace).reverse

/-- Python `int(bytes)`: strips surrounding whitespace, then an optional
sign followed by one or more decimal digits; anything else raises
`ValueError` (modelled as `none`). -/
def parsePyInt (l : ByteStr) : Option Int :=
  let t := stripBytes l
  match t with
  | 43 :: rest =>
      if !rest.isEmpty && rest.all isDigitByte then some (parseDigits rest) else none
  | 45 :: rest =>
      if !rest.isEmpty && rest.all isDigitByte then some (-(parseDigits rest : Int)) else none
  | _ =>
      if !t.isEmpty && t.all isDigitByte then some (parseDigits t) else none

/-- `haystack.startswith(needle)` on bytes. -/
def startsWithL (needle l : ByteStr) : Bool :=
  match needle, l with
  | [], _ => true
  | _ :: _, [] => false
  | a :: p, b :: t => a = b && startsWithL p t

/-- Python `needle in haystack` on bytes: contiguous substring test. -/
def hasSub (needle hay : ByteStr) : Bool :=
  startsWithL needle hay ||
    match hay with
    | [] => false
    | _ :: t => hasSub needle t

/-- `bytes.rfind(b)` specialised to a single byte, as an index option:
`some i` is the index of the last occurrence, `none` means absent
(`rfind` returning `-1`, together with the `b in data` test). -/
def rfindByte (l : ByteStr) (b : Nat) : Option Nat :=
  match l with
  | [] => none
  | x :: xs =>
      match rfindByte xs b with
      | some i => some (i + 1)
      | none => if x = b then some 0 else none

/-- `bytes.find(b"\n")` as an index option (`none` for `-1`). -/
def idxOfByte (l : ByteStr) (b : Nat) : Option Nat :=
  match l with
  | [] => none
  | x :: xs => if x = b then some 0 else (idxOfByte xs b).map (· + 1)

/-- `data.split(None, 1)`: split on the first maximal whitespace run,
ignoring leading whitespace; at most two parts. -/
def splitMaxsplit1 (data : ByteStr) : List ByteStr :=
  let t := data.dropWhile isPySpace
  if t.isEmpty then []
  else
    let tok := t.takeWhile (fun b => !isPySpace b)
    let rest := (t.drop tok.length).dropWhile isPySpace
    if rest.isEmpty then [tok] else [tok, rest]

/-- `re.search(b"N([0-9]+)", data)` followed by `int(...)` on group 1:
first position whose byte is `N` immediately followed by a digit; the
group is the maximal digit run after that `N`. -/
def searchLineNumber (data : ByteStr) : Option Nat :=
  match data with
  | [] => none
  | b :: rest =>
      if b = 78 && (match rest with | r :: _ => isDigitByte r | [] => false) then
        some (parseDigits (rest.takeWhile isDigitByte))
      else searchLineNumber rest

/-- `octoprint.util.to_unicode(data, encoding="ascii", errors="replace")`
on bytes: each byte below 128 decodes to itself, others to U+FFFD. -/
def to_unicode (l : ByteStr) : String :=
  String.mk (l.map (fun b => if b < 128 then Char.ofNat b else Char.ofNat 0xFFFD))

/-- Python `str` whitespace (ASCII part, all that the engine produces). -/
def isPySpaceChar (c : Char) : Bool :=
  c = ' ' || c = '\t' || c = '\n' || c = '\r' || c.toNat = 11 || c.toNat = 12

/-- `str.strip()` restricted to ASCII whitespace. -/
def stringStrip (s : String) : String :=
  String.mk (((s.toList.dropWhile isPySpaceChar).reverse.dropWhile isPySpaceChar).reverse)

/-- `PrinterSerialIO.command_regex = re.compile(r"^([GM])(\d+)")` applied
with `.match`: returns `(group 1, group 0)`, the letter and the full
letter-plus-digits token. -/
def command_regex_match (cmd : String) : Option (String × String) :=
  match cmd.toList with
  | [] => none
  | c :: rest =>
      if c = 'G' || c = 'M' then
        let ds := rest.takeWhile Char.isDigit
        if ds.isEmpty then none else some (String.mk [c], String.mk (c :: ds))
      else none

/-- The engine state of one `PrinterSerialIO` instance.  `current_line` and
`lastN` are `none` until first assigned (they are not set in `__init__`).
`incoming`/`outgoing` are `none` once `close()` nulls the handles.
`callbacks` records the `handle_command_callback` invocations in order. -/
structure PrinterSerial where
  current_line : Option Int
  lastN : Option Int
  incoming : Option (List ByteStr)
  outgoing : Option (List String)
  running : Bool
  received_lines : Nat
  force_checksum : Bool
  callbacks : List (String × String × ByteStr)
deriving DecidableEq

/-- `PrinterSerialIO.__init__`: queues empty, running, zero received lines;
`current_line` and `lastN` are never assigned there. -/
def mkPrinterSerial (forceChecksum : Bool) : PrinterSerial :=
  { current_line := none
    lastN := none
    incoming := some []
    outgoing := some []
    running := true
    received_lines := 0
    force_checksum := forceChecksum
    callbacks := [] }

/-- `send`: enqueue a response line unless the outgoing handle is nulled. -/
def send (s : PrinterSerial) (line : String) : PrinterSerial :=
  match s.outgoing with
  | some q => { s with outgoing := some (q ++ [line]) }
  | none => s

/-- `sendOk`: returns early when outgoing is nulled, else sends `"ok"`. -/
def sendOk (s : PrinterSerial) : PrinterSerial :=
  match s.outgoing with
  | none => s
  | some _ => send s "ok"

/-- `_format_error`: the error-template table, with the positional
arguments already rendered.  Unknown keys or wrong arities (which would
raise in Python) give `none`. -/
def format_error (error : String) (args : List String) : Option String :=
  match error, args with
  | "checksum_mismatch", _ => some "Error: Checksum mismatch"
  | "checksum_missing", _ => some "Error: Missing checksum"
  | "lineno_mismatch", [e, a] => some ("Error: expected line " ++ e ++ " got " ++ a)
  | "lineno_missing", [l] => some ("Error: No Line Number with checksum, Last Line: " ++ l)
  | "maxtemp", _ => some "Error: MAXTEMP triggered!"
  | "mintemp", _ => some "Error: MINTEMP triggered!"
  | "command_unknown", [t] => some ("Error: Unknown command " ++ t)
  | _, _ => none

/-- `_calculate_checksum`: running XOR of every byte. -/
def calculate_checksum (line : ByteStr) : Nat :=
  line.foldl (fun a c => a ^^^ c) 0

/-- Python truthiness of the optional `checksum` argument. -/
def truthyOptInt (o : Option Int) : Bool :=
  match o with
  | none => false
  | some c => c != 0

/-- Body of `_triggerResend` after the expected number is settled: enqueue
one error line (checksum-flavoured when no `actual` was supplied, else the
line-number mismatch), then `Resend:<expected>` and `ok`.  A failed
template lookup (Python `AttributeError` on `None.format`) is surfaced. -/
def resendBody (s : PrinterSerial) (exp : Int) (actual checksum : Option Int) :
    Except PyErr PrinterSerial :=
  let errLine :=
    match actual with
    | none =>
        format_error (if truthyOptInt checksum then "checksum_mismatch" else "checksum_missing") []
    | some a => format_error "lineno_mismatch" [toString exp, toString a]
  match errLine with
  | none => Except.error PyErr.attributeError
  | some msg => Except.ok (sendOk (send (send s msg) ("Resend:" ++ toString exp)))

/-- `_triggerResend(expected, actual, checksum)`: when `expected` is not
supplied it is computed as `lastN + 1` (reading `lastN` raises
`AttributeError` when unset, and `lastN` is not written); when supplied,
`lastN` is reset to `expected - 1`.  Then the error/resend/ok triple is
enqueued by `resendBody`. -/
def triggerResend (s : PrinterSerial) (expected actual checksum : Option Int) :
    Except PyErr PrinterSerial :=
  match expected, s.lastN with
  | none, none => Except.error PyErr.attributeError
  | none, some l => resendBody s (l + 1) actual checksum
  | some e, _ => resendBody { s with lastN := some (e - 1) } e actual checksum

/-- Outcome of one validation stage of the per-line block in `run`:
either the line was consumed (a `continue` in the source) or processing
proceeds with the possibly rewritten line. -/
inductive Flow where
  | consumed (s : PrinterSerial)
  | proceed (s : PrinterSerial) (data : ByteStr)

/-- Lines 102-113 of `run` ("strip checksum"): if the line contains `*`,
parse the trailing claimed checksum, strip it, and compare with the XOR of
the remaining bytes; on mismatch trigger a resend with
`expected = current_line + 1` and consume the line, on match advance
`current_line`.  Without `*`, consume the line with a missing-checksum
error when the `forceChecksum` setting is on. -/
def checksumStage (s : PrinterSerial) (data : ByteStr) : Except PyErr Flow :=
  match rfindByte data 42 with
  | some i =>
      match parsePyInt (data.drop (i + 1)) with
      | none => Except.error PyErr.valueError
      | some cs =>
          let stripped := data.take i
          if cs ≠ (calculate_checksum stripped : Int) then
            match s.current_line with
            | none => Except.error PyErr.attributeError
            | some c =>
                match triggerResend s (some (c + 1)) none none with
                | Except.error e => Except.error e
                | Except.ok s1 => Except.ok (Flow.consumed s1)
          else
            match s.current_line with
            | none => Except.error PyErr.attributeError
            | some c => Except.ok (Flow.proceed { s with current_line := some (c + 1) } stripped)
  | none =>
      if s.force_checksum then
        match format_error "checksum_missing" [] with
        | none => Except.error PyErr.attributeError
        | some msg => Except.ok (Flow.consumed (send s msg))
      else Except.ok (Flow.proceed s data)

/-- Lines 115-132 of `run` ("track N = N + 1"): a line starting with `N`
and containing `M110` resets `lastN` and `current_line` to its first `N`
number and acknowledges; any other `N`-line must carry `lastN + 1`, else a
resend with the actual number is triggered; on acceptance `lastN` is
updated and the leading token is split off and the remainder stripped. -/
def seqStage (s : PrinterSerial) (data : ByteStr) : Except PyErr Flow :=
  if startsWithL [78] data && hasSub (bytesOfString "M110") data then
    match searchLineNumber data with
    | none => Except.error PyErr.attributeError
    | some k =>
        Except.ok (Flow.consumed
          (sendOk { s with lastN := some (k : Int), current_line := some (k : Int) }))
  else if startsWithL [78] data then
    match searchLineNumber data with
    | none => Except.error PyErr.attributeError
    | some k =>
        match s.lastN with
        | none => Except.error PyErr.attributeError
        | some l =>
            if (k : Int) ≠ l + 1 then
              match triggerResend s none (some (k : Int)) none with
              | Except.error e => Except.error e
              | Except.ok s1 => Except.ok (Flow.consumed s1)
            else
              match splitMaxsplit1 data with
              | _ :: rest :: _ =>
                  Except.ok (Flow.proceed { s with lastN := some (k : Int) } (stripBytes rest))
              | _ => Except.error PyErr.indexError
  else Except.ok (Flow.proceed s data)

/-- Lines 134-144 of `run`: re-append the newline, decode and strip, and
when the leading token matches `^([GM])(\d+)` invoke the command callback
with the letter, the token, and the line bytes. -/
def dispatchStage (s : PrinterSerial) (data : ByteStr) : PrinterSerial :=
  let d := data ++ [10]
  let command := stringStrip (to_unicode d)
  match command_regex_match command with
  | some (letter, gcode) => { s with callbacks := s.callbacks ++ [(letter, gcode, d)] }
  | none => s

/-- The per-line block of `run` (lines 100-144): count the line, then the
checksum stage, the line-number stage, and the dispatch stage in order. -/
def processLine (s0 : PrinterSerial) (data : ByteStr) : Except PyErr PrinterSerial :=
  let s := { s0 with received_lines := s0.received_lines + 1 }
  match checksumStage s data with
  | Except.error e => Except.error e
  | Except.ok (Flow.consumed s1) => Except.ok s1
  | Except.ok (Flow.proceed s1 d1) =>
      match seqStage s1 d1 with
      | Except.error e => Except.error e
      | Except.ok (Flow.consumed s2) => Except.ok s2
      | Except.ok (Flow.proceed s2 d2) => Except.ok (dispatchStage s2 d2)

/-- `processLine` folded over several already-framed lines, stopping at
the first escaping exception. -/
def processLines (s : PrinterSerial) : List ByteStr → Except PyErr PrinterSerial
  | [] => Except.ok s
  | l :: ls =>
      match processLine s l with
      | Except.error e => Except.error e
      | Except.ok s1 => processLines s1 ls

/-- State of the `run` loop: the engine instance plus the local line
buffer `buf`. -/
structure RunState where
  io : PrinterSerial
  buf : ByteStr
deriving DecidableEq

/-- One iteration of the `while` loop in `run`: when the loop condition
fails the iteration is a no-op (the loop would exit); an empty incoming
queue raises `queue.Empty`, caught as a bare `continue`; otherwise the
pulled chunk is appended to `buf`, and only if `buf` now holds a newline
is the first complete line sliced out and processed. -/
def runIteration (rs : RunState) : Except PyErr RunState :=
  match rs.io.incoming with
  | none => Except.ok rs
  | some chunks =>
      if !rs.io.running then Except.ok rs
      else
        match chunks with
        | [] => Except.ok rs
        | chunk :: rest =>
            let io1 := { rs.io with incoming := some rest }
            let buf1 := rs.buf ++ chunk
            match idxOfByte buf1 10 with
            | none => Except.ok { io := io1, buf := buf1 }
            | some i =>
                match processLine io1 (buf1.take (i + 1)) with
                | Except.error e => Except.error e
                | Except.ok io2 => Except.ok { io := io2, buf := buf1.drop (i + 1) }

/-- `is_closed`: either handle nulled. -/
def is_closed (s : PrinterSerial) : Bool :=
  s.incoming = none || s.outgoing = none

/-- `self._rx_buffer_size = 64`, the incoming queue's character capacity. -/
def RX_BUFFER_SIZE : Nat := 64

/-- Total byte count held by the incoming queue. -/
def incomingSize (chunks : List ByteStr) : Nat :=
  (chunks.map List.length).sum

/-- Modelled from the spec: `CharCountingQueue.put(data, timeout, partial=True)`
(the class `char_counting_queue.CharCountingQueue` is imported but its
source is not part of the repository snapshot).  Per the spec the buffer
is keyed by total byte count with capacity 64, accepts as much of a write
as fits within the remaining capacity, and a write finding no room within
the write timeout fails with the backpressure condition
(`queue.Full`, re-raised by `write` as `SerialTimeoutException`). -/
def charQueuePut (chunks : List ByteStr) (data : ByteStr) :
    Except PyErr (List ByteStr × Nat) :=
  let room := RX_BUFFER_SIZE - incomingSize chunks
  if room = 0 && data.length > 0 then Except.error PyErr.serialTimeout
  else
    let accepted := min data.length room
    Except.ok (chunks ++ [data.take accepted], accepted)

/-- `write`: under the incoming lock, return 0 when closed, else enqueue
into the bounded incoming buffer and return the accepted count. -/
def write (s : PrinterSerial) (data : ByteStr) :
    Except PyErr (PrinterSerial × Nat) :=
  if is_closed s then Except.ok (s, 0)
  else
    match s.incoming with
    | none => Except.ok (s, 0)
    | some chunks =>
        match charQueuePut chunks data with
        | Except.error e => Except.error e
        | Except.ok (chunks2, written) =>
            Except.ok ({ s with incoming := some chunks2 }, written)

/-- `readline`: `assert self.outgoing is not None` raises once closed;
otherwise pop one response line, or return empty bytes after the read
timeout on an empty queue. -/
def readline (s : PrinterSerial) : Except PyErr (PrinterSerial × ByteStr) :=
  match s.outgoing with
  | none => Except.error PyErr.assertionError
  | some [] => Except.ok (s, [])
  | some (line :: rest) =>
      Except.ok ({ s with outgoing := some rest }, bytesOfString line)

/-- `_clearQueue`: `while q.get(block=False): ...` pops items until the
queue is empty or a popped item is falsy (an empty chunk or string); a
falsy item ends the loop leaving the remaining items behind. -/
def clearQueue {α : Type} (falsy : α → Bool) : List α → List α
  | [] => []
  | x :: xs => if falsy x then xs else clearQueue falsy xs

/-- `reset`: clear each still-open queue with `_clearQueue`. -/
def reset (s : PrinterSerial) : PrinterSerial :=
  let s1 :=
    match s.incoming with
    | none => s
    | some q => { s with incoming := some (clearQueue (fun c : ByteStr => c.isEmpty) q) }
  match s1.outgoing with
  | none => s1
  | some q => { s1 with outgoing := some (clearQueue (fun l : String => l.isEmpty) q) }

/-! Statement-layer definitions: decimal rendering of line numbers and the
shape of well-formed explicit-numbered command lines, used to quantify the
sequencing claims over arbitrary numbers and command bodies. -/

/-- Most-significant-first ASCII decimal digits of `n` (nonempty; `"0"`
for zero), the rendering whose parse the engine performs. -/
def natToDigitBytes (n : Nat) : List Nat :=
  if n = 0 then [48] else (Nat.digits 10 n).reverse.map (fun d => d + 48)

/-- The explicit-numbered line `N<k> <body>`; `body` carries the line's
own trailing newline. -/
def mkNLine (k : Nat) (body : ByteStr) : ByteStr :=
  78 :: natToDigitBytes k ++ 32 :: body

/-- The callback tuple the dispatcher would produce for an accepted
`N`-line whose remainder is `body`: the stripped remainder with a newline
re-appended, together with its matched letter and token. -/
def dispatched (b : ByteStr) : Option (String × String × ByteStr) :=
  (command_regex_match (stringStrip (to_unicode (stripBytes b ++ [10])))).map
    (fun p => (p.1, p.2, stripBytes b ++ [10]))

/-- A command body suitable for an explicit-numbered line: nonempty, not
starting with whitespace, free of the checksum delimiter and of the
`M110` token, and carrying a recognisable G/M command. -/
abbrev BodyOk (b : ByteStr) : Prop :=
  b ≠ [] ∧ isPySpace (b.headD 0) = false ∧ 42 ∉ b ∧
    hasSub (bytesOfString "M110") b = false ∧ (dispatched b).isSome

/-- The lines `N<start+1> b₁`, `N<start+2> b₂`, … for the given bodies. -/
def mkLines (start : Nat) : List ByteStr → List ByteStr
  | [] => []
  | b :: bs => mkNLine (start + 1) b :: mkLines (start + 1) bs

/-- `stop`: flip the running flag. -/
def stop (s : PrinterSerial) : PrinterSerial :=
  { s with running := false }

/-- `close`: `stop()` then null both queue handles. -/
def close (s : PrinterSerial) : PrinterSerial :=
  { s with running := false, incoming := none, outgoing := none }

/-! ## Helper lemmas -/

theorem bytesOfString_M110 : bytesOfString "M110" = [77, 49, 49, 48] := rfl

theorem parseDigits_map_add48 (L : List Nat) (a : Nat) :
    ((L.map (fun d => d + 48)).foldl (fun x b => 10 * x + (b - 48)) a) =
      L.foldl (fun x d => 10 * x + d) a := by
  induction L generalizing a with
  | nil => rfl
  | cons d t ih => simp [List.foldl_cons, ih]

theorem foldr_ofDigits (L : List Nat) :
    L.foldr (fun x y => 10 * y + x) 0 = Nat.ofDigits 10 L := by
  induction L with
  | nil => simp [Nat.ofDigits_nil]
  | cons d t ih => simp [Nat.ofDigits_cons, ih]; ring

theorem parseDigits_natToDigitBytes (n : Nat) : parseDigits (natToDigitBytes n) = n := by
  unfold natToDigitBytes parseDigits
  by_cases h : n = 0
  · simp [h]
  · rw [if_neg h, parseDigits_map_add48, List.foldl_reverse, foldr_ofDigits,
      Nat.ofDigits_digits]

theorem mem_natToDigitBytes {n x : Nat} (h : x ∈ natToDigitBytes n) :
    48 ≤ x ∧ x ≤ 57 := by
  unfold natToDigitBytes at h
  by_cases h0 : n = 0
  · rw [if_pos h0] at h
    simp at h
    omega
  · rw [if_neg h0] at h
    simp only [List.mem_map, List.mem_reverse] at h
    obtain ⟨d, hd, rfl⟩ := h
    have hlt : d < 10 := Nat.digits_lt_base (by norm_num) hd
    omega

theorem natToDigitBytes_ne_nil (n : Nat) : natToDigitBytes n ≠ [] := by
  unfold natToDigitBytes
  by_cases h0 : n = 0
  · simp [h0]
  · rw [if_neg h0]
    simp [Nat.digits_ne_nil_iff_ne_zero, h0]

theorem natToDigitBytes_all_digit {n : Nat} :
    ∀ x ∈ natToDigitBytes n, isDigitByte x = true := by
  intro x hx
  have hb := mem_natToDigitBytes hx
  simp [isDigitByte]
  omega

theorem takeWhile_append_all {p : Nat → Bool} {A : List Nat} {b : Nat} {B : List Nat}
    (hA : ∀ x ∈ A, p x = true) (hb : p b = false) :
    (A ++ b :: B).takeWhile p = A := by
  induction A with
  | nil => simp [List.takeWhile_cons, hb]
  | cons a t ih =>
      have ha : p a = true := hA a (by simp)
      simp [List.takeWhile_cons, ha, ih (fun x hx => hA x (by simp [hx]))]

theorem hasSub_cons_append {x : Nat} {n A B : List Nat} (hx : x ∉ A) :
    hasSub (x :: n) (A ++ B) = hasSub (x :: n) B := by
  induction A with
  | nil => rfl
  | cons a t ih =>
      have hxa : x ≠ a := fun h => hx (by simp [h])
      have hd : (decide (x = a)) = false := by simp [hxa]
      rw [List.cons_append]
      conv_lhs => rw [hasSub]
      simp [startsWithL, hd, ih (fun h => hx (by simp [h]))]

theorem rfindByte_eq_none {l : List Nat} {b : Nat} (h : b ∉ l) : rfindByte l b = none := by
  induction l with
  | nil => rfl
  | cons x t ih =>
      have hx : x ≠ b := fun hxb => h (by simp [hxb])
      simp [rfindByte, ih (fun hm => h (by simp [hm])), hx]

theorem rfindByte_append {pre csb : List Nat} (h : 42 ∉ csb) :
    rfindByte (pre ++ 42 :: csb) 42 = some pre.length := by
  induction pre with
  | nil => simp [rfindByte, rfindByte_eq_none h]
  | cons x t ih => simp [rfindByte, ih]

theorem clearQueue_of_all_truthy {α : Type} {falsy : α → Bool} {l : List α}
    (h : ∀ x ∈ l, falsy x = false) : clearQueue falsy l = [] := by
  induction l with
  | nil => rfl
  | cons x t ih =>
      simp [clearQueue, h x (by simp)]
      exact ih (fun y hy => h y (by simp [hy]))

theorem star_not_mem_mkNLine {k : Nat} {b : List Nat} (h : 42 ∉ b) :
    42 ∉ mkNLine k b := by
  intro hm
  unfold mkNLine at hm
  rcases List.mem_cons.mp hm with h1 | h1
  · exact absurd h1 (by norm_num)
  rcases List.mem_append.mp h1 with h2 | h2
  · exact absurd (mem_natToDigitBytes h2) (by omega)
  rcases List.mem_cons.mp h2 with h3 | h3
  · exact absurd h3 (by norm_num)
  · exact h h3

theorem checksumStage_noStar {s : PrinterSerial} {data : ByteStr}
    (h42 : 42 ∉ data) (hfc : s.force_checksum = false) :
    checksumStage s data = Except.ok (Flow.proceed s data) := by
  unfold checksumStage
  rw [rfindByte_eq_none h42, hfc]
  simp

theorem searchLineNumber_mkNLine (k : Nat) (b : ByteStr) :
    searchLineNumber (mkNLine k b) = some k := by
  obtain ⟨d, ds, hds⟩ : ∃ d ds, natToDigitBytes k = d :: ds := by
    cases hh : natToDigitBytes k with
    | nil => exact absurd hh (natToDigitBytes_ne_nil k)
    | cons d ds => exact ⟨d, ds, rfl⟩
  have hdd : isDigitByte d = true := natToDigitBytes_all_digit d (by rw [hds]; simp)
  have hds' : ∀ x ∈ ds, isDigitByte x = true := fun x hx =>
    natToDigitBytes_all_digit x (by rw [hds]; simp [hx])
  have h32 : isDigitByte 32 = false := rfl
  unfold mkNLine
  rw [hds]
  show searchLineNumber (78 :: d :: (ds ++ 32 :: b)) = some k
  rw [searchLineNumber]
  simp only [hdd]
  rw [if_pos (by simp)]
  rw [List.takeWhile_cons, hdd]
  simp only [if_true, takeWhile_append_all hds' h32]
  rw [show d :: ds = natToDigitBytes k from hds.symm, parseDigits_natToDigitBytes]

theorem splitMaxsplit1_mkNLine {k : Nat} {b : ByteStr} (hne : b ≠ [])
    (hhd : isPySpace (b.headD 0) = false) :
    splitMaxsplit1 (mkNLine k b) = [78 :: natToDigitBytes k, b] := by
  obtain ⟨bh, bt, rfl⟩ : ∃ bh bt, b = bh :: bt := by
    cases b with
    | nil => exact absurd rfl hne
    | cons bh bt => exact ⟨bh, bt, rfl⟩
  have hnws : ∀ x ∈ natToDigitBytes k, (!isPySpace x) = true := by
    intro x hx
    have := mem_natToDigitBytes hx
    simp [isPySpace]
    omega
  have h32ws : (!isPySpace 32) = false := rfl
  have hbh : isPySpace bh = false := by simpa using hhd
  have h1 : List.dropWhile isPySpace (78 :: (natToDigitBytes k ++ 32 :: bh :: bt)) =
      78 :: (natToDigitBytes k ++ 32 :: bh :: bt) := by
    rw [List.dropWhile_cons]
    simp [show isPySpace 78 = false from rfl]
  have h2 : List.takeWhile (fun x => !isPySpace x)
      (78 :: (natToDigitBytes k ++ 32 :: bh :: bt)) = 78 :: natToDigitBytes k := by
    rw [List.takeWhile_cons]
    simp only [show (!isPySpace 78) = true from rfl, if_true]
    rw [takeWhile_append_all hnws h32ws]
  have h3 : List.drop (78 :: natToDigitBytes k).length
      (78 :: (natToDigitBytes k ++ 32 :: bh :: bt)) = 32 :: bh :: bt := by
    simp only [List.length_cons]
    rw [List.drop_succ_cons, List.drop_left]
  have h4 : List.dropWhile isPySpace (32 :: bh :: bt) = bh :: bt := by
    rw [List.dropWhile_cons]
    simp only [show isPySpace 32 = true from rfl, if_true]
    rw [List.dropWhile_cons]
    simp [hbh]
  unfold splitMaxsplit1 mkNLine
  simp [h1, h2, h3, h4]

theorem dispatchStage_eq {s : PrinterSerial} {b : ByteStr} :
    dispatchStage s (stripBytes b) =
      { s with callbacks := s.callbacks ++ (dispatched b).toList } := by
  unfold dispatchStage dispatched
  cases hc : command_regex_match (stringStrip (to_unicode (stripBytes b ++ [10]))) with
  | none => simp [hc]
  | some p => cases p with | mk l t => simp [hc]

theorem hasSub_M110_mkNLine {k : Nat} {b : ByteStr}
    (hm : hasSub (bytesOfString "M110") b = false) :
    hasSub (bytesOfString "M110") (mkNLine k b) = false := by
  have hshape : mkNLine k b = (78 :: (natToDigitBytes k ++ [32])) ++ b := by
    simp [mkNLine]
  have h77 : 77 ∉ 78 :: (natToDigitBytes k ++ [32]) := by
    intro hmem
    rcases List.mem_cons.mp hmem with h1 | h1
    · exact absurd h1 (by norm_num)
    rcases List.mem_append.mp h1 with h2 | h2
    · exact absurd (mem_natToDigitBytes h2) (by omega)
    · simp at h2
  rw [hshape, bytesOfString_M110] at *
  rw [show ([77, 49, 49, 48] : List Nat) = 77 :: [49, 49, 48] from rfl] at *
  rw [hasSub_cons_append h77]
  exact hm

theorem startsWithN_mkNLine (k : Nat) (b : ByteStr) :
    startsWithL [78] (mkNLine k b) = true := by
  unfold mkNLine startsWithL
  simp [startsWithL]

theorem castSucc (start : Nat) : ((start + 1 : Nat) : Int) = (start : Int) + 1 := by
  push_cast
  ring

theorem seqStage_accept {s : PrinterSerial} {start : Nat} {b : ByteStr}
    (hl : s.lastN = some (start : Int)) (hb : BodyOk b) :
    seqStage s (mkNLine (start + 1) b) =
      Except.ok (Flow.proceed { s with lastN := some ((start + 1 : Nat) : Int) }
        (stripBytes b)) := by
  obtain ⟨hne, hhd, h42, hm, _⟩ := hb
  unfold seqStage
  rw [startsWithN_mkNLine, hasSub_M110_mkNLine hm, searchLineNumber_mkNLine, hl,
    splitMaxsplit1_mkNLine hne hhd]
  simp [castSucc]

theorem processLine_step_inorder {s : PrinterSerial} {start : Nat} {b : ByteStr}
    (hl : s.lastN = some (start : Int)) (hfc : s.force_checksum = false) (hb : BodyOk b) :
    processLine s (mkNLine (start + 1) b) =
      Except.ok { s with lastN := some ((start + 1 : Nat) : Int),
                         received_lines := s.received_lines + 1,
                         callbacks := s.callbacks ++ (dispatched b).toList } := by
  have h42 : 42 ∉ mkNLine (start + 1) b := star_not_mem_mkNLine hb.2.2.1
  have hfc1 : ({ s with received_lines := s.received_lines + 1 }
      : PrinterSerial).force_checksum = false := hfc
  have hl1 : ({ s with received_lines := s.received_lines + 1 }
      : PrinterSerial).lastN = some (start : Int) := hl
  simp only [processLine, checksumStage_noStar h42 hfc1, seqStage_accept hl1 hb,
    dispatchStage_eq]

theorem processLines_inorder {bodies : List ByteStr} : ∀ (s : PrinterSerial) (start : Nat),
    s.lastN = some (start : Int) → s.force_checksum = false →
    (∀ b ∈ bodies, BodyOk b) →
    processLines s (mkLines start bodies) =
      Except.ok { s with lastN := some ((start + bodies.length : Nat) : Int),
                         received_lines := s.received_lines + bodies.length,
                         callbacks := s.callbacks ++ bodies.filterMap dispatched } := by
  induction bodies with
  | nil =>
      intro s start hl hfc _
      simp only [mkLines, processLines, List.length_nil, List.filterMap_nil,
        List.append_nil, Nat.add_zero]
      rw [← hl]
  | cons b bs ih =>
      intro s start hl hfc hall
      have hstep := processLine_step_inorder hl hfc (hall b (by simp))
      simp only [mkLines, processLines, hstep]
      rw [ih { s with lastN := some ((start + 1 : Nat) : Int),
                      received_lines := s.received_lines + 1,
                      callbacks := s.callbacks ++ (dispatched b).toList }
        (start + 1) rfl hfc (fun x hx => hall x (by simp [hx]))]
      have hcb : (dispatched b).toList ++ bs.filterMap dispatched =
          (b :: bs).filterMap dispatched := by
        rw [List.filterMap_cons]
        cases dispatched b <;> simp
      have hlen : start + 1 + bs.length = start + (b :: bs).length := by
        simp only [List.length_cons]
        omega
      have hrl : s.received_lines + 1 + bs.length = s.received_lines + (b :: bs).length := by
        simp only [List.length_cons]
        omega
      simp only [List.append_assoc, hcb, hlen, hrl]

theorem triggerResend_actual {s : PrinterSerial} {q : List String} {l a : Int}
    (hl : s.lastN = some l) (hq : s.outgoing = some q) :
    triggerResend s none (some a) none =
      Except.ok { s with outgoing := some (q ++
        ["Error: expected line " ++ toString (l + 1) ++ " got " ++ toString a,
         "Resend:" ++ toString (l + 1), "ok"]) } := by
  unfold triggerResend
  rw [hl]
  unfold resendBody format_error
  simp [send, sendOk, hq, hl]

theorem processLine_mismatch {s : PrinterSerial} {q : List String} {l : Int} {k : Nat}
    {b : ByteStr} (hl : s.lastN = some l) (hq : s.outgoing = some q)
    (hfc : s.force_checksum = false) (hb : BodyOk b) (hk : (k : Int) ≠ l + 1) :
    processLine s (mkNLine k b) =
      Except.ok { s with received_lines := s.received_lines + 1,
                         outgoing := some (q ++
        ["Error: expected line " ++ toString (l + 1) ++ " got " ++ toString (k : Int),
         "Resend:" ++ toString (l + 1), "ok"]) } := by
  obtain ⟨hne, hhd, h42b, hm, _⟩ := hb
  have h42 : 42 ∉ mkNLine k b := star_not_mem_mkNLine h42b
  have hfc1 : ({ s with received_lines := s.received_lines + 1 }
      : PrinterSerial).force_checksum = false := hfc
  have hl1 : ({ s with received_lines := s.received_lines + 1 }
      : PrinterSerial).lastN = some l := hl
  have hq1 : ({ s with received_lines := s.received_lines + 1 }
      : PrinterSerial).outgoing = some q := hq
  have hseq : ∀ t : PrinterSerial, t.lastN = some l → t.outgoing = some q →
      seqStage t (mkNLine k b) =
        Except.ok (Flow.consumed
          ({ t with outgoing := some (q ++
              ["Error: expected line " ++ toString (l + 1) ++ " got " ++
                 toString (k : Int),
               "Resend:" ++ toString (l + 1), "ok"]) } : PrinterSerial)) := by
    intro t htl htq
    unfold seqStage
    rw [startsWithN_mkNLine, hasSub_M110_mkNLine hm, searchLineNumber_mkNLine, htl]
    simp [hk, htl, triggerResend_actual htl htq]
  simp only [processLine, checksumStage_noStar h42 hfc1, hseq _ hl1 hq1]

theorem processLine_m110 {s : PrinterSerial} {q : List String} {k : Nat} {rest : ByteStr}
    (hq : s.outgoing = some q) (hfc : s.force_checksum = false)
    (h42 : 42 ∉ rest) (hm : hasSub (bytesOfString "M110") (mkNLine k rest) = true) :
    processLine s (mkNLine k rest) =
      Except.ok { s with current_line := some (k : Int), lastN := some (k : Int),
                         received_lines := s.received_lines + 1,
                         outgoing := some (q ++ ["ok"]) } := by
  have h42' : 42 ∉ mkNLine k rest := star_not_mem_mkNLine h42
  have hfc1 : ({ s with received_lines := s.received_lines + 1 }
      : PrinterSerial).force_checksum = false := hfc
  have hq1 : ({ s with received_lines := s.received_lines + 1 }
      : PrinterSerial).outgoing = some q := hq
  have hseq : ∀ t : PrinterSerial, t.outgoing = some q →
      seqStage t (mkNLine k rest) =
        Except.ok (Flow.consumed
          ({ t with current_line := some (k : Int),
                    lastN := some (k : Int),
                    outgoing := some (q ++ ["ok"]) } : PrinterSerial)) := by
    intro t htq
    unfold seqStage
    rw [startsWithN_mkNLine, hm, searchLineNumber_mkNLine]
    simp [sendOk, send, htq]
  simp only [processLine, checksumStage_noStar h42' hfc1, hseq _ hq1]

/-! ## Claim theorems -/

/-- Claim C1 (code bug evidence).  The claim states that a line with an
incorrect checksum enqueues "Error: Checksum mismatch" and advances no
sequencing state.  Evaluating the engine at such a line (state
`current_line = 5`, `lastN = 3`, line `b"G1 X10*99\n"` whose true checksum
is 15): the engine enqueues "Error: Missing checksum" (the call site
passes no checksum flag to the resend trigger), then `Resend:6` and `ok`
in order, leaves `current_line` at 5, but rewrites `lastN` to
`current_line` (3 to 5); the line is not dispatched. -/
theorem C1_checksum_mismatch_eval :
    processLine ⟨some 5, some 3, some [], some [], true, 7, false, []⟩
        (bytesOfString "G1 X10*99\n") =
      Except.ok ⟨some 5, some 5, some [],
        some ["Error: Missing checksum", "Resend:6", "ok"], true, 8, false, []⟩ := rfl

/-- Claim C2 (counterexample).  The claim states that after `close()` a
`readline` returns an empty byte sequence; in fact `readline` asserts
that the outgoing handle is non-null and hence raises `AssertionError`
on a closed channel. -/
theorem C2_counterexample_readline_raises :
    readline (close (mkPrinterSerial false)) = Except.error PyErr.assertionError := rfl

/-- Claim C2 (amended).  After `close()`, every subsequent `write` returns
0 with no side effect, and every subsequent `readline` raises
`AssertionError` (rather than returning empty bytes); neither path
consults the queues, so neither blocks. -/
theorem C2_after_close (s : PrinterSerial) (data : ByteStr) :
    write (close s) data = Except.ok (close s, 0) ∧
    readline (close s) = Except.error PyErr.assertionError := ⟨rfl, rfl⟩

/-- Claim C3 (counterexample).  The claim states that every line of the
form `M110 N<k>` resets `lastN = current_line = k` with exactly one `ok`
and no dispatch.  The line `b"M110 N7\n"` does not start with `N`, so the
engine instead dispatches it to the callback as an ordinary `M` command,
enqueues nothing, and leaves `lastN = current_line = 0`. -/
theorem C3_counterexample_bare_m110 :
    processLine ⟨some 0, some 0, some [], some [], true, 0, false, []⟩
        (bytesOfString "M110 N7\n") =
      Except.ok ⟨some 0, some 0, some [], some [], true, 1, false,
        [("M", "M110", bytesOfString "M110 N7\n\n")]⟩ := rfl

/-- Claim C3 (amended).  A sequence-reset is recognised only on a line
that starts with an `N` token and contains `M110`: for any such line
`N<k> …M110…` (no checksum delimiter, force-checksum off), regardless of
the prior values of `lastN` and `current_line` (including unset),
processing sets `lastN = current_line = k` (the first `N` number on the
line), enqueues exactly one `ok`, and dispatches nothing. -/
theorem C3_m110_reset (s : PrinterSerial) (q : List String) (k : Nat) (rest : ByteStr)
    (hq : s.outgoing = some q) (hfc : s.force_checksum = false)
    (h42 : 42 ∉ rest) (hm : hasSub (bytesOfString "M110") (mkNLine k rest) = true) :
    processLine s (mkNLine k rest) =
      Except.ok { s with current_line := some (k : Int), lastN := some (k : Int),
                         received_lines := s.received_lines + 1,
                         outgoing := some (q ++ ["ok"]) } :=
  processLine_m110 hq hfc h42 hm

/-- Witness for C3: the reset line `N0 M110 N0` processed from the
freshly constructed engine (where `lastN` and `current_line` are unset)
initialises both to 0 and enqueues exactly one `ok`. -/
theorem C3_m110_reset_witness :
    (mkPrinterSerial false).outgoing = some [] ∧
    (42 ∉ bytesOfString "M110 N0\n") ∧
    hasSub (bytesOfString "M110") (mkNLine 0 (bytesOfString "M110 N0\n")) = true ∧
    processLine (mkPrinterSerial false) (mkNLine 0 (bytesOfString "M110 N0\n")) =
      Except.ok ⟨some 0, some 0, some [], some ["ok"], true, 1, false, []⟩ :=
  ⟨rfl, by decide, by decide,
    C3_m110_reset (mkPrinterSerial false) [] 0 (bytesOfString "M110 N0\n")
      rfl rfl (by decide) (by decide)⟩

/-- Claim C4 (counterexample).  The claim states that two complete lines
delivered in one chunk are dispatched across two consecutive loop
iterations with no further input.  In fact the iteration that consumes
the chunk processes only the first line; the next iteration finds the
incoming queue empty and `continue`s without touching the buffer (it is
the identity), so the second callback never happens without new input. -/
theorem C4_counterexample_second_iteration_idle :
    runIteration ⟨⟨some 0, some 0, some [bytesOfString "N1 G1 X1*96\nN2 G1 X2*96\n"],
        some [], true, 0, false, []⟩, []⟩ =
      Except.ok ⟨⟨some 1, some 1, some [], some [], true, 1, false,
        [("G", "G1", bytesOfString "G1 X1\n")]⟩, bytesOfString "N2 G1 X2*96\n"⟩ ∧
    runIteration ⟨⟨some 1, some 1, some [], some [], true, 1, false,
        [("G", "G1", bytesOfString "G1 X1\n")]⟩, bytesOfString "N2 G1 X2*96\n"⟩ =
      Except.ok ⟨⟨some 1, some 1, some [], some [], true, 1, false,
        [("G", "G1", bytesOfString "G1 X1\n")]⟩, bytesOfString "N2 G1 X2*96\n"⟩ :=
  ⟨rfl, rfl⟩

/-- Claim C4 (amended).  At most one candidate line is processed per
iteration, in strict order: the iteration that consumes the two-line
chunk dispatches line 1 and retains line 2 in the buffer; line 2 is
dispatched on the next iteration in which a further chunk arrives. -/
theorem C4_one_line_per_iteration :
    runIteration ⟨⟨some 0, some 0,
        some [bytesOfString "N1 G1 X1*96\nN2 G1 X2*96\n", bytesOfString "M104 S0\n"],
        some [], true, 0, false, []⟩, []⟩ =
      Except.ok ⟨⟨some 1, some 1, some [bytesOfString "M104 S0\n"], some [], true, 1, false,
        [("G", "G1", bytesOfString "G1 X1\n")]⟩, bytesOfString "N2 G1 X2*96\n"⟩ ∧
    runIteration ⟨⟨some 1, some 1, some [bytesOfString "M104 S0\n"], some [], true, 1, false,
        [("G", "G1", bytesOfString "G1 X1\n")]⟩, bytesOfString "N2 G1 X2*96\n"⟩ =
      Except.ok ⟨⟨some 2, some 2, some [], some [], true, 2, false,
        [("G", "G1", bytesOfString "G1 X1\n"), ("G", "G1", bytesOfString "G1 X2\n")]⟩,
        bytesOfString "M104 S0\n"⟩ :=
  ⟨rfl, rfl⟩

/-- Claim C5 (counterexample).  The claim states that `current_line` and
`lastN` hold 0 at engine construction and that the first checksum-bearing
line is validated via the protocol-level resend path at worst.  In fact
both fields are unset at construction, and processing a (correctly
checksummed) line on the fresh engine raises `AttributeError` when the
engine reads `current_line`. -/
theorem C5_counterexample_uninitialized :
    (mkPrinterSerial false).current_line = none ∧
    (mkPrinterSerial false).lastN = none ∧
    processLine (mkPrinterSerial false) (bytesOfString "G1 X10*15\n") =
      Except.error PyErr.attributeError := ⟨rfl, rfl, rfl⟩

/-- Claim C5 (amended).  `current_line` and `lastN` are not assigned at
engine construction; a checksum-bearing line or an explicit-numbered
non-M110 line processed before any M110 raises `AttributeError` instead
of entering any validation path; an `N… M110` line, which writes both
fields without reading them, first initialises them. -/
theorem C5_uninitialized_behavior :
    (mkPrinterSerial false).current_line = none ∧
    (mkPrinterSerial false).lastN = none ∧
    processLine (mkPrinterSerial false) (bytesOfString "N1 G1 X10*80\n") =
      Except.error PyErr.attributeError ∧
    processLine (mkPrinterSerial false) (bytesOfString "N1 G1 X10\n") =
      Except.error PyErr.attributeError ∧
    processLine (mkPrinterSerial false) (bytesOfString "N0 M110 N0\n") =
      Except.ok ⟨some 0, some 0, some [], some ["ok"], true, 1, false, []⟩ :=
  ⟨rfl, rfl, rfl, rfl, rfl⟩

/-- Claim C6.  Writing the single line `b"N1 G1 X10*80\n"` (80 is the XOR
of the bytes before the `*`) with `lastN = 0` and any `current_line = c`
results in exactly one callback invocation `("G", "G1", b"G1 X10\n")`
(numbering and checksum stripped, newline re-appended), no resend and no
other response: `current_line` advances to `c + 1`, `lastN` to 1, and the
outgoing queue is untouched. -/
theorem C6_roundtrip (c : Int) (inc : Option (List ByteStr)) (out : Option (List String))
    (r : Bool) (rl : Nat) (fc : Bool) (cb : List (String × String × ByteStr)) :
    processLine ⟨some c, some 0, inc, out, r, rl, fc, cb⟩ (bytesOfString "N1 G1 X10*80\n") =
      Except.ok ⟨some (c + 1), some 1, inc, out, r, rl + 1, fc,
        cb ++ [("G", "G1", bytesOfString "G1 X10\n")]⟩ := rfl

/-- Claim C7.  First part: for every sequence of explicit-numbered lines
received strictly in order starting from `lastN + 1` (well-formed command
bodies, no checksums, force-checksum off), each line is accepted, `lastN`
ends at the last number, and each line is dispatched with the leading `N`
token stripped, with no resend or other response.  Second part: a line
whose number `k` differs from `lastN + 1` is not dispatched and enqueues
exactly the triple "Error: expected line {expected} got {actual}",
`Resend:<expected>`, `ok` with `expected = lastN + 1`, and afterwards
`lastN = expected - 1`. -/
theorem C7_explicit_sequencing :
    (∀ (s : PrinterSerial) (start : Nat) (bodies : List ByteStr),
        s.lastN = some (start : Int) → s.force_checksum = false →
        (∀ b ∈ bodies, BodyOk b) →
        processLines s (mkLines start bodies) =
          Except.ok { s with lastN := some ((start + bodies.length : Nat) : Int),
                             received_lines := s.received_lines + bodies.length,
                             callbacks := s.callbacks ++ bodies.filterMap dispatched }) ∧
    (∀ (s : PrinterSerial) (q : List String) (l : Int) (k : Nat) (b : ByteStr),
        s.lastN = some l → s.outgoing = some q → s.force_checksum = false →
        BodyOk b → (k : Int) ≠ l + 1 →
        processLine s (mkNLine k b) =
          Except.ok { s with lastN := some (l + 1 - 1),
                             received_lines := s.received_lines + 1,
                             outgoing := some (q ++
            ["Error: expected line " ++ toString (l + 1) ++ " got " ++ toString (k : Int),
             "Resend:" ++ toString (l + 1), "ok"]) }) := by
  constructor
  · intro s start bodies hl hfc hall
    exact processLines_inorder s start hl hfc hall
  · intro s q l k b hl hq hfc hb hk
    rw [processLine_mismatch hl hq hfc hb hk]
    have hln : s.lastN = some (l + 1 - 1) := by
      rw [hl]
      congr 1
      ring
    cases s with
    | mk cl ln inc out r rl fc cb =>
        simp only at hln
        rw [hln]

/-- Witness for C7: two in-order lines `N1 G1 X1` and `N2 G1 X2` from
`lastN = 0` are both accepted and dispatched stripped of their numbers;
the out-of-order line `N9 G1 X1` at `lastN = 5` triggers the
`expected line 6 got 9` resend cycle and leaves `lastN = 5`. -/
theorem C7_explicit_sequencing_witness :
    (∀ b ∈ [bytesOfString "G1 X1\n", bytesOfString "G1 X2\n"], BodyOk b) ∧
    processLines ⟨some 9, some 0, some [], some [], true, 0, false, []⟩
        (mkLines 0 [bytesOfString "G1 X1\n", bytesOfString "G1 X2\n"]) =
      Except.ok ⟨some 9, some 2, some [], some [], true, 2, false,
        [("G", "G1", bytesOfString "G1 X1\n"), ("G", "G1", bytesOfString "G1 X2\n")]⟩ ∧
    processLine ⟨some 0, some 5, some [], some [], true, 0, false, []⟩
        (mkNLine 9 (bytesOfString "G1 X1\n")) =
      Except.ok ⟨some 0, some 5, some [],
        some ["Error: expected line 6 got 9", "Resend:6", "ok"], true, 1, false, []⟩ :=
  ⟨by decide,
   C7_explicit_sequencing.1 ⟨some 9, some 0, some [], some [], true, 0, false, []⟩ 0
     [bytesOfString "G1 X1\n", bytesOfString "G1 X2\n"] rfl rfl (by decide),
   C7_explicit_sequencing.2 ⟨some 0, some 5, some [], some [], true, 0, false, []⟩ [] 5 9
     (bytesOfString "G1 X1\n") rfl rfl rfl (by decide) (by decide)⟩

/-- Claim C8.  For every line `pre ++ b"*" ++ csb` whose trailing field
parses to the XOR of the bytes of `pre` (the `*` shown is the last one in
the line), the checksum stage advances `current_line` by exactly 1,
passes the stripped line on, and enqueues nothing (the state is otherwise
untouched, in particular the outgoing queue). -/
theorem C8_checksum_ok_advances (s : PrinterSerial) (c : Int) (pre csb : ByteStr)
    (hc : s.current_line = some c) (hn : 42 ∉ csb)
    (hp : parsePyInt csb = some ((calculate_checksum pre : Nat) : Int)) :
    checksumStage s (pre ++ 42 :: csb) =
      Except.ok (Flow.proceed { s with current_line := some (c + 1) } pre) := by
  unfold checksumStage
  rw [rfindByte_append hn]
  have hdrop : (pre ++ 42 :: csb).drop (pre.length + 1) = csb := by
    rw [show pre ++ 42 :: csb = (pre ++ [42]) ++ csb by simp]
    rw [show pre.length + 1 = (pre ++ [42]).length by simp]
    exact List.drop_left _ _
  have htake : (pre ++ 42 :: csb).take pre.length = pre := List.take_left _ _
  simp only [hdrop, hp, htake]
  simp [hc]

/-- Witness for C8: the concrete line `b"N1 G1 X10*80\n"` split at its
`*` satisfies the hypotheses (80 is the XOR of `b"N1 G1 X10"`), and the
stage advances `current_line` from 0 to 1 passing on the stripped line. -/
theorem C8_checksum_ok_advances_witness :
    (42 ∉ bytesOfString "80\n") ∧
    parsePyInt (bytesOfString "80\n") =
      some ((calculate_checksum (bytesOfString "N1 G1 X10") : Nat) : Int) ∧
    checksumStage ⟨some 0, some 0, some [], some [], true, 0, false, []⟩
        (bytesOfString "N1 G1 X10" ++ 42 :: bytesOfString "80\n") =
      Except.ok (Flow.proceed ⟨some 1, some 0, some [], some [], true, 0, false, []⟩
        (bytesOfString "N1 G1 X10")) :=
  ⟨by decide, by decide,
   C8_checksum_ok_advances ⟨some 0, some 0, some [], some [], true, 0, false, []⟩ 0
     (bytesOfString "N1 G1 X10") (bytesOfString "80\n") rfl (by decide) (by decide)⟩

/-- Claim C9 (counterexample).  The claim states `reset()` is idempotent
and drains both queues.  `_clearQueue` stops at the first falsy item:
with the incoming queue holding an empty chunk followed by `b"x"` (both
reachable through `write`), one `reset` leaves `[b"x"]` behind and a
second `reset` removes it, so `reset ∘ reset ≠ reset` on that state. -/
theorem C9_counterexample_reset_not_idempotent :
    write (mkPrinterSerial false) [] =
      Except.ok (⟨none, none, some [[]], some [], true, 0, false, []⟩, 0) ∧
    write ⟨none, none, some [[]], some [], true, 0, false, []⟩ [120] =
      Except.ok (⟨none, none, some [[], [120]], some [], true, 0, false, []⟩, 1) ∧
    reset (reset ⟨none, none, some [[], [120]], some [], true, 0, false, []⟩) ≠
      reset ⟨none, none, some [[], [120]], some [], true, 0, false, []⟩ := by
  refine ⟨rfl, rfl, ?_⟩
  decide

/-- Claim C9 (amended).  `reset()` never touches sequencing state,
lifecycle state, the received-line count, the settings snapshot or the
callback record, and preserves closedness of each handle; and whenever
neither still-open queue contains an empty (falsy) item — always true of
the outgoing queue as the engine only enqueues non-empty lines — a single
`reset` drains both queues completely and `reset` is idempotent. -/
theorem C9_reset_properties :
    (∀ s : PrinterSerial,
        (reset s).current_line = s.current_line ∧ (reset s).lastN = s.lastN ∧
        (reset s).running = s.running ∧ (reset s).received_lines = s.received_lines ∧
        (reset s).force_checksum = s.force_checksum ∧
        (reset s).callbacks = s.callbacks ∧
        ((reset s).incoming = none ↔ s.incoming = none) ∧
        ((reset s).outgoing = none ↔ s.outgoing = none)) ∧
    (∀ (s : PrinterSerial) (qin : List ByteStr) (qout : List String),
        s.incoming = some qin → s.outgoing = some qout →
        (∀ ch ∈ qin, ch.isEmpty = false) → (∀ m ∈ qout, m.isEmpty = false) →
        reset s = { s with incoming := some [], outgoing := some [] } ∧
        reset (reset s) = reset s) := by
  constructor
  · intro s
    unfold reset
    cases hin : s.incoming <;> cases hout : s.outgoing <;> simp [hin, hout]
  · intro s qin qout hin hout hv1 hv2
    have r1 : reset s = { s with incoming := some [], outgoing := some [] } := by
      unfold reset
      simp [hin, hout, clearQueue_of_all_truthy hv1, clearQueue_of_all_truthy hv2]
    refine ⟨r1, ?_⟩
    rw [r1]
    unfold reset
    simp [clearQueue]

/-- Witness for C9: on an open channel with one pending non-empty chunk
and one pending response, `reset` drains both queues, changes nothing
else, and a second `reset` is a no-op. -/
theorem C9_reset_properties_witness :
    (reset ⟨some 3, some 4, some [[120]], some ["ok"], true, 2, false, []⟩).lastN = some 4 ∧
    ((∀ ch ∈ [[120]], List.isEmpty ch = false) ∧ (∀ m ∈ ["ok"], String.isEmpty m = false)) ∧
    reset ⟨some 3, some 4, some [[120]], some ["ok"], true, 2, false, []⟩ =
      ⟨some 3, some 4, some [], some [], true, 2, false, []⟩ ∧
    reset (reset ⟨some 3, some 4, some [[120]], some ["ok"], true, 2, false, []⟩) =
      reset ⟨some 3, some 4, some [[120]], some ["ok"], true, 2, false, []⟩ :=
  ⟨(C9_reset_properties.1 ⟨some 3, some 4, some [[120]], some ["ok"], true, 2, false, []⟩).2.1.trans rfl,
   ⟨by decide, by decide⟩,
   (C9_reset_properties.2 ⟨some 3, some 4, some [[120]], some ["ok"], true, 2, false, []⟩
      [[120]] ["ok"] rfl rfl (by decide) (by decide)).1,
   (C9_reset_properties.2 ⟨some 3, some 4, some [[120]], some ["ok"], true, 2, false, []⟩
      [[120]] ["ok"] rfl rfl (by decide) (by decide)).2⟩

/-- Claim C10.  When the resend trigger is invoked with an actual line
number but no expected value (the sequence-gap path), the reported
expected value is computed as `lastN + 1` and `lastN` is not written: the
returned state differs from the input only in the outgoing queue, so the
same gap detection applies to the retransmitted line. -/
theorem C10_gap_resend_preserves_lastN (s : PrinterSerial) (q : List String) (l a : Int)
    (hl : s.lastN = some l) (hq : s.outgoing = some q) :
    triggerResend s none (some a) none =
      Except.ok { s with outgoing := some (q ++
        ["Error: expected line " ++ toString (l + 1) ++ " got " ++ toString a,
         "Resend:" ++ toString (l + 1), "ok"]) } ∧
    ({ s with outgoing := some (q ++
        ["Error: expected line " ++ toString (l + 1) ++ " got " ++ toString a,
         "Resend:" ++ toString (l + 1), "ok"]) } : PrinterSerial).lastN = s.lastN :=
  ⟨triggerResend_actual hl hq, rfl⟩

/-- Witness for C10: the gap path at `lastN = 5`, actual 9, reports
expected 6 and leaves `lastN` untouched. -/
theorem C10_gap_resend_preserves_lastN_witness :
    triggerResend ⟨some 0, some 5, some [], some [], true, 0, false, []⟩ none (some 9) none =
      Except.ok ⟨some 0, some 5, some [],
        some ["Error: expected line 6 got 9", "Resend:6", "ok"], true, 0, false, []⟩ ∧
    (⟨some 0, some 5, some [],
        some ["Error: expected line 6 got 9", "Resend:6", "ok"], true, 0, false, []⟩
      : PrinterSerial).lastN = some 5 :=
  ⟨(C10_gap_resend_preserves_lastN ⟨some 0, some 5, some [], some [], true, 0, false, []⟩
      [] 5 9 rfl rfl).1,
   (C10_gap_resend_preserves_lastN ⟨some 0, some 5, some [], some [], true, 0, false, []⟩
      [] 5 9 rfl rfl).2⟩

end BambuSerial
